import Mathlib

/-
Verification development for the HKPC PPE access-control client
(animation controller in part_000 and the websocket / body-visualization /
lifecycle handlers in static/js/websocket_handler.js).

The embedding below translates the relevant JavaScript functions into
executable Lean definitions: DOM mutations become explicit state passing,
timer registrations become explicit (delay, step) schedules with absolute
fire times, and `Math.random()` draws become rational parameters in [0, 1).
-/

/-! ## Coverage mapper (body visualization) -/

/-- `toLowerCase()` as used throughout websocket_handler.js: ASCII lowering
applied characterwise (all class names in the repository are basic latin). -/
def jsToLower (s : String) : String := String.mk (s.data.map Char.toLower)

/-- Region status derived for each body part by `updateBodyVisualization`:
the three-way classification driving the color choice
(NOT_REQUIRED / REQUIRED_AND_DETECTED / REQUIRED_AND_MISSING). -/
inductive RegionStatus where
  | NOT_REQUIRED
  | REQUIRED_AND_DETECTED
  | REQUIRED_AND_MISSING
deriving DecidableEq, Repr

/-- `BODY_PART_MAPPING` from websocket_handler.js: the fixed region set,
each region mapped to its equipment-class synonyms. -/
def BODY_PART_MAPPING : List (String × List String) :=
  [("head", ["Head", "Helmet"]),
   ("face", ["Face", "Face-mask-medical"]),
   ("eyes", ["Glasses", "Face-guard"]),
   ("mouth", ["Face-mask-medical"]),
   ("ears", ["Ear", "Earmuffs"]),
   ("chest", ["Safety-vest", "Medical-suit", "Safety-suit"]),
   ("hands-left", ["Hands", "Gloves"]),
   ("hands-right", ["Hands", "Gloves"]),
   ("feet", ["Foot", "Shoes"])]

/-- Per-region status computation from the body of `updateBodyVisualization`:
both input lists and the region's synonyms are lowercased, `isRequired` and
`isDetected` are membership tests, and the if / else-if chain picks the
status. -/
def regionStatusOf (detectedClasses requiredClasses partClasses : List String) :
    RegionStatus :=
  let detectedLower := detectedClasses.map jsToLower
  let requiredLower := requiredClasses.map jsToLower
  let partClassesLower := partClasses.map jsToLower
  let isRequired := partClassesLower.any (fun cls => requiredLower.contains cls)
  let isDetected := partClassesLower.any (fun cls => detectedLower.contains cls)
  if !isRequired then RegionStatus.NOT_REQUIRED
  else if isDetected then RegionStatus.REQUIRED_AND_DETECTED
  else RegionStatus.REQUIRED_AND_MISSING

/-- `updateBodyVisualization(detectedClasses, requiredClasses)`: computes the
status of every region of `BODY_PART_MAPPING`. -/
def updateBodyVisualization (detectedClasses requiredClasses : List String) :
    List (String × RegionStatus) :=
  BODY_PART_MAPPING.map
    (fun p => (p.1, regionStatusOf detectedClasses requiredClasses p.2))

/-- Result record of `getStatusSummary`. -/
structure StatusSummary where
  total : Nat
  detected : Nat
  missing : Nat
  missingList : List String
  allDetected : Bool
deriving DecidableEq, Repr

/-- `getStatusSummary()` from websocket_handler.js, with the module state
`currentDetected` / `currentRequired` passed explicitly: filters the
lowercased required class list against the lowercased detected class list. -/
def getStatusSummary (currentDetected currentRequired : List String) :
    StatusSummary :=
  let detectedLower := currentDetected.map jsToLower
  let requiredLower := currentRequired.map jsToLower
  let missing := requiredLower.filter (fun cls => !detectedLower.contains cls)
  let detected := requiredLower.filter (fun cls => detectedLower.contains cls)
  { total := requiredLower.length
    detected := detected.length
    missing := missing.length
    missingList := missing
    allDetected := missing.length == 0 }

/-! ## Helper lemmas -/

theorem length_filter_partition {α : Type} (p : α → Bool) (l : List α) :
    (l.filter p).length + (l.filter (fun a => !p a)).length = l.length := by
  induction l with
  | nil => rfl
  | cons a t ih =>
    by_cases h : p a = true
    · simp [List.filter_cons, h]
      omega
    · simp at h
      simp [List.filter_cons, h]
      omega

/-! ## Theorems for the coverage-mapper claims -/

/-- Claim C10: for every detected/required snapshot, the summary's counts
partition the required set (`detected + missing = total`) and `allDetected`
holds exactly when the missing count is zero, equivalently when
`missingList` is empty. -/
theorem c10_summary_partition (cd cr : List String) :
    (getStatusSummary cd cr).detected + (getStatusSummary cd cr).missing
        = (getStatusSummary cd cr).total
  ∧ ((getStatusSummary cd cr).allDetected = true
        ↔ (getStatusSummary cd cr).missing = 0)
  ∧ ((getStatusSummary cd cr).allDetected = true
        ↔ (getStatusSummary cd cr).missingList = []) := by
  refine ⟨?_, ?_, ?_⟩
  · simpa [getStatusSummary] using
      length_filter_partition
        (fun cls => (cd.map jsToLower).contains cls)
        (cr.map jsToLower)
  · simp [getStatusSummary]
  · simp [getStatusSummary, List.length_eq_zero]

/-- Claim C6: a region whose synonym classes are all absent (case-insensitively)
from the required classes is mapped to NOT_REQUIRED, for every detected set;
in particular with an empty required list every region of the fixed mapping
is NOT_REQUIRED, independent of the detection snapshot. -/
theorem c6_not_required_policy :
    (∀ (detected required classes : List String),
        (∀ c ∈ classes, ((required.map jsToLower).contains (jsToLower c)) = false) →
        regionStatusOf detected required classes = RegionStatus.NOT_REQUIRED)
  ∧ (∀ detected : List String, ∀ p ∈ updateBodyVisualization detected [],
        p.2 = RegionStatus.NOT_REQUIRED) := by
  constructor
  · intro detected required classes h
    have hany : (classes.map jsToLower).any
        (fun cls => (required.map jsToLower).contains cls) = false := by
      rcases hb : (classes.map jsToLower).any
          (fun cls => (required.map jsToLower).contains cls) with _ | _
      · rfl
      · exfalso
        rcases List.any_eq_true.mp hb with ⟨x, hx, hpx⟩
        rcases List.mem_map.mp hx with ⟨c, hc, rfl⟩
        have hfc := h c hc
        simp only [hfc] at hpx
        exact Bool.false_ne_true hpx
    simp only [regionStatusOf]
    rw [hany]
    rfl
  · intro detected p hp
    rcases List.mem_map.mp hp with ⟨q, hq, rfl⟩
    have hany : (q.2.map jsToLower).any
        (fun cls => (([] : List String).map jsToLower).contains cls) = false := by
      rw [List.any_eq_false]
      intro x hx
      simp
    simp only [regionStatusOf]
    rw [hany]
    rfl

/-- Witness for C6 at a concrete input: the face region, with none of its
synonyms required, is NOT_REQUIRED. -/
theorem c6_not_required_policy_witness :
    regionStatusOf ["helmet"] ["Shoes", "Gloves"] ["Face", "Face-mask-medical"]
      = RegionStatus.NOT_REQUIRED :=
  c6_not_required_policy.1 ["helmet"] ["Shoes", "Gloves"]
    ["Face", "Face-mask-medical"] (by decide)

/-- Claim C7: the coverage mapping is pure and case-insensitive — inputs that
agree up to letter case yield identical region statuses — and on
required = [Helmet, Gloves], detected = [helmet] the head region is
REQUIRED_AND_DETECTED, both hand regions REQUIRED_AND_MISSING, and every
other region NOT_REQUIRED. -/
theorem c7_case_insensitive :
    (∀ d r dAlt rAlt : List String,
        d.map jsToLower = dAlt.map jsToLower →
        r.map jsToLower = rAlt.map jsToLower →
        updateBodyVisualization d r = updateBodyVisualization dAlt rAlt)
  ∧ updateBodyVisualization ["helmet"] ["Helmet", "Gloves"] =
      [("head", RegionStatus.REQUIRED_AND_DETECTED),
       ("face", RegionStatus.NOT_REQUIRED),
       ("eyes", RegionStatus.NOT_REQUIRED),
       ("mouth", RegionStatus.NOT_REQUIRED),
       ("ears", RegionStatus.NOT_REQUIRED),
       ("chest", RegionStatus.NOT_REQUIRED),
       ("hands-left", RegionStatus.REQUIRED_AND_MISSING),
       ("hands-right", RegionStatus.REQUIRED_AND_MISSING),
       ("feet", RegionStatus.NOT_REQUIRED)] := by
  constructor
  · intro d r dAlt rAlt hd hr
    simp only [updateBodyVisualization, regionStatusOf, hd, hr]
  · decide

/-- Witness for C7 at concrete inputs that differ only in letter case. -/
theorem c7_case_insensitive_witness :
    updateBodyVisualization ["HELMET"] ["helmet", "GLOVES"]
      = updateBodyVisualization ["Helmet"] ["Helmet", "Gloves"] :=
  c7_case_insensitive.1 ["HELMET"] ["helmet", "GLOVES"] ["Helmet"]
    ["Helmet", "Gloves"] (by decide) (by decide)

/-- Claim C2 counterexample: with detected = [helmet] and
required = [Helmet, Gloves], `missingList` is the class list [gloves], while
the regions whose status is REQUIRED_AND_MISSING are hands-left and
hands-right — so `missingList` is not the set of missing regions. -/
theorem c2_counterexample :
    (getStatusSummary ["helmet"] ["Helmet", "Gloves"]).missingList = ["gloves"]
  ∧ ((updateBodyVisualization ["helmet"] ["Helmet", "Gloves"]).filter
        (fun st => st.2 == RegionStatus.REQUIRED_AND_MISSING)).map Prod.fst
      = ["hands-left", "hands-right"]
  ∧ (["gloves"] : List String) ≠ ["hands-left", "hands-right"] := by
  decide

/-- Claim C2 (amended): `missingList` equals the lowercased required class
names that are absent, case-insensitively, from the detected set — it lists
equipment classes, not regions; every region whose status is
REQUIRED_AND_MISSING has at least one synonym whose lowercase form appears in
`missingList`, but the two collections are not equal in general. -/
theorem c2_missing_classes (cd cr : List String) :
    ((getStatusSummary cd cr).missingList =
        (cr.map jsToLower).filter
          (fun cls => !(cd.map jsToLower).contains cls))
  ∧ (∀ pid classes, (pid, classes) ∈ BODY_PART_MAPPING →
        regionStatusOf cd cr classes = RegionStatus.REQUIRED_AND_MISSING →
        ∃ c ∈ classes, jsToLower c ∈ (getStatusSummary cd cr).missingList) := by
  constructor
  · rfl
  · intro pid classes hmem hstat
    by_cases hreq : (classes.map jsToLower).any
        (fun cls => (cr.map jsToLower).contains cls) = true
    · by_cases hdet : (classes.map jsToLower).any
          (fun cls => (cd.map jsToLower).contains cls) = true
      · exfalso
        simp only [regionStatusOf] at hstat
        rw [hreq, hdet] at hstat
        simp at hstat
      · rcases List.any_eq_true.mp hreq with ⟨x, hx, hpx⟩
        rcases List.mem_map.mp hx with ⟨c, hc, rfl⟩
        refine ⟨c, hc, ?_⟩
        have hxr : jsToLower c ∈ cr.map jsToLower :=
          List.mem_of_elem_eq_true hpx
        have hdetF : (classes.map jsToLower).any
            (fun cls => (cd.map jsToLower).contains cls) = false := by
          simpa using hdet
        have hxd : ((cd.map jsToLower).contains (jsToLower c)) = false := by
          have := List.any_eq_false.mp hdetF _ hx
          simpa using this
        simp only [getStatusSummary]
        rw [List.mem_filter]
        exact ⟨hxr, by rw [hxd]; rfl⟩
    · exfalso
      have hreqF : (classes.map jsToLower).any
          (fun cls => (cr.map jsToLower).contains cls) = false := by
        simpa using hreq
      simp only [regionStatusOf] at hstat
      rw [hreqF] at hstat
      simp at hstat

/-- Witness for C2 (amended) at a concrete input: the hands-left region is
REQUIRED_AND_MISSING and indeed one of its synonyms (gloves) is in
`missingList`. -/
theorem c2_missing_classes_witness :
    ∃ c ∈ (["Hands", "Gloves"] : List String),
      jsToLower c ∈ (getStatusSummary ["helmet"] ["Helmet", "Gloves"]).missingList :=
  (c2_missing_classes ["helmet"] ["Helmet", "Gloves"]).2 "hands-left"
    ["Hands", "Gloves"] (by decide) (by decide)

/-! ## Event stream client: lifecycle coupling -/

/-- The browser / channel lifecycle events the handlers in
websocket_handler.js listen to. -/
inductive LifecycleEvent where
  | connect
  | disconnect
  | beforeunload
  | unload
  | pagehide
  | visibilitychange (hidden : Bool)
deriving DecidableEq, Repr

/-- Messages emitted to the backend over the channel. -/
inductive OutboundMessage where
  | start_detection
  | stop_detection
  | request_config
deriving DecidableEq, Repr

/-- The system-status indicator text/color set by the connect/disconnect
handlers. -/
structure SystemStatusIndicator where
  text : String
  color : String
deriving DecidableEq, Repr

/-- The lifecycle listeners of websocket_handler.js, one case per registered
handler: what each emits and how it updates the status indicator
(`none` = the handler leaves the indicator untouched). -/
def handleLifecycleEvent :
    LifecycleEvent → List OutboundMessage × Option SystemStatusIndicator
  | LifecycleEvent.connect =>
      ([OutboundMessage.start_detection],
       some { text := "● System Active", color := "#10B981" })
  | LifecycleEvent.disconnect =>
      ([], some { text := "● Disconnected", color := "#EF4444" })
  | LifecycleEvent.beforeunload => ([OutboundMessage.stop_detection], none)
  | LifecycleEvent.unload => ([OutboundMessage.stop_detection], none)
  | LifecycleEvent.pagehide => ([OutboundMessage.stop_detection], none)
  | LifecycleEvent.visibilitychange hidden =>
      if hidden then ([OutboundMessage.stop_detection], none)
      else ([OutboundMessage.start_detection], none)

/-- Claim C3 counterexample: the disconnect handler emits no message at all —
in particular no stop_detection request — contradicting the claim that a
stop_detection request is emitted on channel disconnect. -/
theorem c3_counterexample :
    (handleLifecycleEvent LifecycleEvent.disconnect).1 = []
  ∧ OutboundMessage.stop_detection ∉
      (handleLifecycleEvent LifecycleEvent.disconnect).1 := by
  decide

/-- Claim C3 (amended): the client emits start_detection on channel connect
and on page-becomes-visible, and stop_detection on page-hide (both the
tab-hidden visibility change and the pagehide event) and on page-unload
(both beforeunload and unload); on channel disconnect it emits nothing and
only switches the status indicator to Disconnected. -/
theorem c3_lifecycle_emissions :
    (handleLifecycleEvent LifecycleEvent.connect).1
        = [OutboundMessage.start_detection]
  ∧ (handleLifecycleEvent (LifecycleEvent.visibilitychange false)).1
        = [OutboundMessage.start_detection]
  ∧ (handleLifecycleEvent (LifecycleEvent.visibilitychange true)).1
        = [OutboundMessage.stop_detection]
  ∧ (handleLifecycleEvent LifecycleEvent.pagehide).1
        = [OutboundMessage.stop_detection]
  ∧ (handleLifecycleEvent LifecycleEvent.beforeunload).1
        = [OutboundMessage.stop_detection]
  ∧ (handleLifecycleEvent LifecycleEvent.unload).1
        = [OutboundMessage.stop_detection]
  ∧ (handleLifecycleEvent LifecycleEvent.disconnect).1 = []
  ∧ (handleLifecycleEvent LifecycleEvent.disconnect).2
        = some { text := "● Disconnected", color := "#EF4444" } := by
  decide

/-! ## Animation controller (part_000): scheduled sequences

Each `play*` call registers plain browser timeouts; nested timeouts are
flattened to cumulative delays from the start of the call. The source never
calls `clearTimeout` (and `clearAllAnimations` only strips CSS classes), so
every registered step fires at its scheduled time. -/

/-- One scheduled action of the animation controller, identified with its
parameters. -/
inductive AnimStep where
  | setAnimatingFlag (value : Bool)
  | setTransition (elementId value : String)
  | addClass (elementId className : String)
  | removeClass (elementId className : String)
  | setText (elementId value : String)
  | setDisplay (elementId value : String)
  | createParticle (index : Nat)
  | removeParticle (index : Nat)
  | showProgress
  | startProgressFill (durationMs : Nat)
  | callHighlightMissingPPE
deriving DecidableEq, Repr

/-- The body-part list hard-coded in `animateBodyPartsSuccess`. -/
def bodyParts : List String :=
  ["head", "face", "eyes", "chest", "hands-left", "hands-right", "feet"]

/-- Shift a schedule of (delay, step) pairs by the delay at which the
enclosing timeout fires. -/
def offsetSchedule (t : Nat) (s : List (Nat × AnimStep)) : List (Nat × AnimStep) :=
  s.map (fun e => (t + e.1, e.2))

/-- `animateBodyPartsSuccess`: the i-th part gets its transition set and the
scale-in marker at i*100 ms, removed 500 ms later. -/
def animateBodyPartsSuccessSchedule : List (Nat × AnimStep) :=
  bodyParts.enum.flatMap (fun p =>
    [(p.1 * 100, AnimStep.setTransition p.2 "all 0.5s ease"),
     (p.1 * 100, AnimStep.addClass p.2 "scale-in"),
     (p.1 * 100 + 500, AnimStep.removeClass p.2 "scale-in")])

/-- `transitionStatusSection`: fade-out, then after 300 ms swap to fade-in,
removed 500 ms later. -/
def transitionStatusSectionSchedule : List (Nat × AnimStep) :=
  [(0, AnimStep.addClass "access-status" "fade-out"),
   (300, AnimStep.removeClass "access-status" "fade-out"),
   (300, AnimStep.addClass "access-status" "fade-in"),
   (300 + 500, AnimStep.removeClass "access-status" "fade-in")]

/-- `showWelcomeMessage(name)`: set the welcome text, show the element,
slide it in, and drop the slide-in marker after 600 ms. -/
def showWelcomeMessageSchedule (name : String) : List (Nat × AnimStep) :=
  [(0, AnimStep.setText "status-user" ("Welcome, " ++ name ++ "!")),
   (0, AnimStep.setDisplay "status-user" "block"),
   (0, AnimStep.addClass "status-user" "slide-in-up"),
   (600, AnimStep.removeClass "status-user" "slide-in-up")]

/-- `particleCount` in `createSuccessParticles`. -/
def particleCount : Nat := 30

/-- The fixed success palette in `createSuccessParticles`. -/
def colors : List String := ["#10B981", "#34D399", "#6EE7B7", "#FFFFFF"]

/-- `createSuccessParticles`: the i-th particle is created at i*50 ms and
removed 1500 ms after its creation. -/
def createSuccessParticlesSchedule : List (Nat × AnimStep) :=
  (List.range particleCount).flatMap (fun i =>
    [(i * 50, AnimStep.createParticle i),
     (i * 50 + 1500, AnimStep.removeParticle i)])

/-- The style computed for one particle in `createSuccessParticles`, with the
three `Math.random()` draws passed as rational parameters in [0, 1). -/
structure Particle where
  widthPx : ℚ
  heightPx : ℚ
  background : String
  leftPercent : ℚ
  bottom : String
deriving DecidableEq, Repr

/-- Particle construction from `createSuccessParticles`:
width = random*10+5 px, height = width, background drawn from the palette at
index floor(random*length), left = random*100 %, bottom = 0. -/
def createParticleElement (rSize rColor rLeft : ℚ) : Particle :=
  let w := rSize * 10 + 5
  { widthPx := w
    heightPx := w
    background := colors.getD (Int.toNat ⌊rColor * (colors.length : ℚ)⌋) ""
    leftPercent := rLeft * 100
    bottom := "0" }

/-- `animateDoorOpening(duration)`: show the progress element and reset the
bar immediately, then arm the linear width transition over `duration` ms
after a 50 ms delay. -/
def animateDoorOpeningSchedule (duration : Nat) : List (Nat × AnimStep) :=
  [(0, AnimStep.showProgress), (50, AnimStep.startProgressFill duration)]

/-- `playAccessGranted(personName)` with the fill duration it hands to
`animateDoorOpening` kept as a parameter: the flag is raised immediately,
body parts at t=0, status transition at 200, welcome at 400, particles at
600, door opening at 800, and the flag is lowered at 4000. -/
def playAccessGrantedScheduleWithFill (fillDuration : Nat) (personName : String) :
    List (Nat × AnimStep) :=
  (0, AnimStep.setAnimatingFlag true) ::
  animateBodyPartsSuccessSchedule ++
  offsetSchedule 200 transitionStatusSectionSchedule ++
  offsetSchedule 400 (showWelcomeMessageSchedule personName) ++
  offsetSchedule 600 createSuccessParticlesSchedule ++
  offsetSchedule 800 (animateDoorOpeningSchedule fillDuration) ++
  [(4000, AnimStep.setAnimatingFlag false)]

/-- `playAccessGranted(personName)` as written: the call site hard-codes the
default fill duration 3000 ms in `animateDoorOpening(3000)`. -/
def playAccessGrantedSchedule (personName : String) : List (Nat × AnimStep) :=
  playAccessGrantedScheduleWithFill 3000 personName

/-- `shakeElement(elementId)`: add the shake marker, remove it after 500 ms. -/
def shakeElementSchedule (elementId : String) : List (Nat × AnimStep) :=
  [(0, AnimStep.addClass elementId "shake-animation"),
   (500, AnimStep.removeClass elementId "shake-animation")]

/-- `showDenialReason`: apply the attention marker to the denial-reason text,
remove it after 1000 ms (the reason argument is unused by the source). -/
def showDenialReasonSchedule : List (Nat × AnimStep) :=
  [(0, AnimStep.addClass "status-message" "attention-animation"),
   (1000, AnimStep.removeClass "status-message" "attention-animation")]

/-- `playAccessDenied(reason)`: flag up immediately, shake at t=0,
highlightMissingPPE at 200, denial-reason attention at 400, flag down at
2000. -/
def playAccessDeniedSchedule : List (Nat × AnimStep) :=
  (0, AnimStep.setAnimatingFlag true) ::
  shakeElementSchedule "access-status" ++
  [(200, AnimStep.callHighlightMissingPPE)] ++
  offsetSchedule 400 showDenialReasonSchedule ++
  [(2000, AnimStep.setAnimatingFlag false)]

/-- Absolute fire times when global sequences are started at the given
times: the source registers plain setTimeout callbacks and never cancels
them, so every step of every started sequence fires at start + delay. -/
def firedEvents (starts : List (Nat × List (Nat × AnimStep))) :
    List (Nat × AnimStep) :=
  starts.flatMap (fun s => offsetSchedule s.1 s.2)

/-! ## Theorems for the sequence claims -/

/-- Claim C1 evaluated at the failing input (granted sequence started at
t=0 for person Alex, denied sequence started at t=100): steps belonging to
the granted sequence — its status-panel transition at t=200 and its final
flag reset at t=4000 — are among the fired events, at or after the denied
sequence's start; nothing in the source cancels a pending timeout, so the
claimed cancellation does not exist. -/
theorem c1_overlapping_sequences :
    (200, AnimStep.addClass "access-status" "fade-out")
        ∈ firedEvents
            [(0, playAccessGrantedSchedule "Alex"), (100, playAccessDeniedSchedule)]
  ∧ (200, AnimStep.addClass "access-status" "fade-out")
        ∈ offsetSchedule 0 (playAccessGrantedSchedule "Alex")
  ∧ (4000, AnimStep.setAnimatingFlag false)
        ∈ firedEvents
            [(0, playAccessGrantedSchedule "Alex"), (100, playAccessDeniedSchedule)]
  ∧ (4000, AnimStep.setAnimatingFlag false)
        ∈ offsetSchedule 0 (playAccessGrantedSchedule "Alex")
  ∧ 100 ≤ 200 ∧ (100 : Nat) ≤ 4000 := by
  decide

/-- Claim C4 counterexample: mouth is a region of the fixed set, yet no step
of `animateBodyPartsSuccess` ever applies the success marker to it — the
sequence covers only the seven hard-coded parts, not every tracked region. -/
theorem c4_counterexample :
    "mouth" ∈ BODY_PART_MAPPING.map Prod.fst
  ∧ animateBodyPartsSuccessSchedule.all
      (fun e => !(e.2 == AnimStep.addClass "mouth" "scale-in")) = true := by
  decide

/-- Claim C4 (amended): at t=0 of the granted sequence the success marker is
applied to the seven hard-coded regions head, face, eyes, chest, hands-left,
hands-right, feet — all tracked regions except mouth and ears — the i-th at
i*100 ms (a 100 ms stagger), each marker removed 500 ms later, and all these
steps are part of the granted sequence's schedule. -/
theorem c4_success_stagger :
    bodyParts = ["head", "face", "eyes", "chest", "hands-left", "hands-right", "feet"]
  ∧ (∀ i : Fin bodyParts.length,
        (i.1 * 100, AnimStep.addClass (bodyParts.get i) "scale-in")
            ∈ animateBodyPartsSuccessSchedule
      ∧ (i.1 * 100 + 500, AnimStep.removeClass (bodyParts.get i) "scale-in")
            ∈ animateBodyPartsSuccessSchedule)
  ∧ (∀ p ∈ bodyParts, p ∈ BODY_PART_MAPPING.map Prod.fst)
  ∧ (∀ personName : String, ∀ e ∈ animateBodyPartsSuccessSchedule,
        e ∈ playAccessGrantedSchedule personName) := by
  refine ⟨rfl, by decide, by decide, ?_⟩
  intro personName e he
  simp only [playAccessGrantedSchedule, playAccessGrantedScheduleWithFill,
    List.mem_cons, List.mem_append]
  tauto

/-- Witness for C4 (amended) at a concrete input: head is one of the
animated parts and is a region of the fixed set. -/
theorem c4_success_stagger_witness :
    "head" ∈ BODY_PART_MAPPING.map Prod.fst :=
  c4_success_stagger.2.2.1 "head" (by decide)

/-- Claim C5: each particle has size in [5, 15) px (height = width), a color
from the fixed 4-color palette, and a random horizontal position in
[0, 100) %; the burst has 30 particles, the i-th created at 600 + i*50 ms
(50 ms stagger from the t=600 burst) and auto-removed 1500 ms after its
creation; the door-opening progress fill starts at t=800 (its width
transition armed 50 ms later) over the caller-supplied duration, which
`playAccessGranted` supplies as the default 3000 ms; and the sequence is
marked inactive at t=4000 whatever the fill duration. -/
theorem c5_granted_schedule :
    (∀ rSize rColor rLeft : ℚ,
        0 ≤ rSize → rSize < 1 → 0 ≤ rColor → rColor < 1 → 0 ≤ rLeft → rLeft < 1 →
        (5 ≤ (createParticleElement rSize rColor rLeft).widthPx
          ∧ (createParticleElement rSize rColor rLeft).widthPx < 15)
      ∧ (createParticleElement rSize rColor rLeft).heightPx
          = (createParticleElement rSize rColor rLeft).widthPx
      ∧ (createParticleElement rSize rColor rLeft).background ∈ colors
      ∧ (0 ≤ (createParticleElement rSize rColor rLeft).leftPercent
          ∧ (createParticleElement rSize rColor rLeft).leftPercent < 100))
  ∧ colors.length = 4
  ∧ particleCount = 30
  ∧ (∀ i : Fin particleCount,
        (i.1 * 50, AnimStep.createParticle i.1) ∈ createSuccessParticlesSchedule
      ∧ (i.1 * 50 + 1500, AnimStep.removeParticle i.1)
            ∈ createSuccessParticlesSchedule)
  ∧ (∀ (fillDuration : Nat) (personName : String),
        (∀ e ∈ createSuccessParticlesSchedule,
            (600 + e.1, e.2) ∈ playAccessGrantedScheduleWithFill fillDuration personName)
      ∧ (800, AnimStep.showProgress)
            ∈ playAccessGrantedScheduleWithFill fillDuration personName
      ∧ (800 + 50, AnimStep.startProgressFill fillDuration)
            ∈ playAccessGrantedScheduleWithFill fillDuration personName
      ∧ (4000, AnimStep.setAnimatingFlag false)
            ∈ playAccessGrantedScheduleWithFill fillDuration personName)
  ∧ (∀ personName, playAccessGrantedSchedule personName
        = playAccessGrantedScheduleWithFill 3000 personName) := by
  refine ⟨?_, rfl, rfl, by decide, ?_, fun personName => rfl⟩
  · intro rSize rColor rLeft hS0 hS1 hC0 hC1 hL0 hL1
    refine ⟨⟨?_, ?_⟩, rfl, ?_, ?_, ?_⟩
    · simp only [createParticleElement]
      nlinarith
    · simp only [createParticleElement]
      nlinarith
    · simp only [createParticleElement]
      have hlen : ((colors.length : Nat) : ℚ) = 4 := by norm_num [colors]
      rw [hlen]
      have hge : (0 : ℤ) ≤ ⌊rColor * (4 : ℚ)⌋ := by
        apply Int.floor_nonneg.mpr
        nlinarith
      have hlt : ⌊rColor * (4 : ℚ)⌋ < 4 := by
        apply Int.floor_lt.mpr
        push_cast
        nlinarith
      obtain ⟨n, hn⟩ : ∃ n, Int.toNat ⌊rColor * (4 : ℚ)⌋ = n := ⟨_, rfl⟩
      have hidx : n < 4 := by omega
      rw [hn]
      interval_cases n <;> decide
    · simp only [createParticleElement]
      nlinarith
    · simp only [createParticleElement]
      nlinarith
  · intro fillDuration personName
    refine ⟨?_, ?_, ?_, ?_⟩
    · intro e he
      have hmem : (600 + e.1, e.2) ∈ offsetSchedule 600 createSuccessParticlesSchedule :=
        List.mem_map_of_mem (fun x => (600 + x.1, x.2)) he
      simp only [playAccessGrantedScheduleWithFill, List.mem_cons, List.mem_append]
      tauto
    · have hmem : (800, AnimStep.showProgress)
          ∈ offsetSchedule 800 (animateDoorOpeningSchedule fillDuration) := by
        simp [offsetSchedule, animateDoorOpeningSchedule]
      simp only [playAccessGrantedScheduleWithFill, List.mem_cons, List.mem_append]
      tauto
    · have hmem : (800 + 50, AnimStep.startProgressFill fillDuration)
          ∈ offsetSchedule 800 (animateDoorOpeningSchedule fillDuration) := by
        simp [offsetSchedule, animateDoorOpeningSchedule]
      simp only [playAccessGrantedScheduleWithFill, List.mem_cons, List.mem_append]
      tauto
    · simp only [playAccessGrantedScheduleWithFill, List.mem_cons, List.mem_append]
      simp

/-- Witness for C5 at concrete random draws (all 1/2): the particle is 10 px
wide and square, colored from the palette, and positioned at 50 %. -/
theorem c5_granted_schedule_witness :
    (5 ≤ (createParticleElement (1/2) (1/2) (1/2)).widthPx
      ∧ (createParticleElement (1/2) (1/2) (1/2)).widthPx < 15)
  ∧ (createParticleElement (1/2) (1/2) (1/2)).heightPx
      = (createParticleElement (1/2) (1/2) (1/2)).widthPx
  ∧ (createParticleElement (1/2) (1/2) (1/2)).background ∈ colors
  ∧ (0 ≤ (createParticleElement (1/2) (1/2) (1/2)).leftPercent
      ∧ (createParticleElement (1/2) (1/2) (1/2)).leftPercent < 100) :=
  c5_granted_schedule.1 (1/2) (1/2) (1/2) (by norm_num) (by norm_num)
    (by norm_num) (by norm_num) (by norm_num) (by norm_num)

/-! ## State machine and visual synchronizer: the ACCESS_DENIED case -/

/-- The fields of an access_status_change event that the ACCESS_DENIED case
reads; `none` models a field absent from the inbound event. -/
structure AccessStatusEvent where
  state : String
  message : Option String
  person_name : Option String
deriving DecidableEq, Repr

/-- JavaScript truthiness of a possibly-absent string field: an absent field
and the empty string are both falsy — this is exactly the presence test
`if (data.person_name)` the handler performs. -/
def jsTruthyString : Option String → Bool
  | none => false
  | some s => !(s == "")

/-- JavaScript `v || dflt` for a possibly-absent string field. -/
def jsOrString (v : Option String) (dflt : String) : String :=
  match v with
  | some s => if s == "" then dflt else s
  | none => dflt

/-- The display state the ACCESS_DENIED case writes. `statusUserText = none`
means the handler left the previous text untouched (it only hides the
slot). -/
structure StatusDisplay where
  sectionClass : String
  statusIcon : String
  statusText : String
  statusMessage : String
  statusUserText : Option String
  statusUserDisplay : String
  doorProgressDisplay : String
deriving DecidableEq, Repr

/-- The ACCESS_DENIED case of the access_status_change handler in
websocket_handler.js: denied styling, the ❌ icon, `data.message` or the
default denial text, the person-name slot shown with `data.person_name`
when that field is truthy and hidden otherwise, and the progress indicator
hidden. (The handler additionally fires the denied animations, modelled by
`playAccessDeniedSchedule` above.) -/
def handleAccessDenied (e : AccessStatusEvent) : StatusDisplay :=
  let userShown := jsTruthyString e.person_name
  { sectionClass := "denied"
    statusIcon := "❌"
    statusText := "ACCESS DENIED"
    statusMessage := jsOrString e.message "Access requirements not met"
    statusUserText := if userShown then e.person_name else none
    statusUserDisplay := if userShown then "block" else "none"
    doorProgressDisplay := "none" }

/-- Claim C8: on every ACCESS_DENIED event — the handler being a total
function, it never fails on a malformed event — an absent message field is
replaced by the default denial text, the person-name slot is shown with the
event's person name when that field is present (the code's truthiness test:
provided and non-empty) and hidden otherwise, the progress indicator is
hidden, and the screen always carries the regular denied styling, never an
error display. -/
theorem c8_access_denied_defaults (e : AccessStatusEvent) :
    (e.message = none →
        (handleAccessDenied e).statusMessage = "Access requirements not met")
  ∧ (∀ n, e.person_name = some n → n ≠ "" →
        (handleAccessDenied e).statusUserText = some n
      ∧ (handleAccessDenied e).statusUserDisplay = "block")
  ∧ (jsTruthyString e.person_name = false →
        (handleAccessDenied e).statusUserText = none
      ∧ (handleAccessDenied e).statusUserDisplay = "none")
  ∧ (handleAccessDenied e).doorProgressDisplay = "none"
  ∧ (handleAccessDenied e).sectionClass = "denied"
  ∧ (handleAccessDenied e).statusText = "ACCESS DENIED" := by
  refine ⟨?_, ?_, ?_, rfl, rfl, rfl⟩
  · intro h
    simp [handleAccessDenied, jsOrString, h]
  · intro n hn hne
    constructor
    · simp [handleAccessDenied, jsTruthyString, hn, hne]
    · simp [handleAccessDenied, jsTruthyString, hn, hne]
  · intro h
    constructor
    · simp [handleAccessDenied, h]
    · simp [handleAccessDenied, h]

/-- Witness for C8 at a concrete malformed event: no message field, person
name Alex — the default denial text is shown and the name slot shows
Alex. -/
theorem c8_access_denied_defaults_witness :
    (handleAccessDenied
        { state := "ACCESS_DENIED", message := none, person_name := some "Alex" }).statusMessage
      = "Access requirements not met"
  ∧ (handleAccessDenied
        { state := "ACCESS_DENIED", message := none, person_name := some "Alex" }).statusUserText
      = some "Alex"
  ∧ (handleAccessDenied
        { state := "ACCESS_DENIED", message := none, person_name := some "Alex" }).statusUserDisplay
      = "block" :=
  ⟨(c8_access_denied_defaults
      { state := "ACCESS_DENIED", message := none, person_name := some "Alex" }).1 rfl,
   ((c8_access_denied_defaults
      { state := "ACCESS_DENIED", message := none, person_name := some "Alex" }).2.1
      "Alex" rfl (by decide)).1,
   ((c8_access_denied_defaults
      { state := "ACCESS_DENIED", message := none, person_name := some "Alex" }).2.1
      "Alex" rfl (by decide)).2⟩

/-! ## Rendering surface semantics: absent targets -/

/-- A fillable or stroked child element of an SVG body part. -/
structure SvgChild where
  tag : String
  fill : Option String
  stroke : Option String
deriving DecidableEq, Repr


/-- A rendering-surface element: text, the CSS display / transition / width
styles the sequences touch, class list, SVG children, and the particle divs
appended to it. -/
structure DomElement where
  textContent : String
  display : String
  transition : String
  width : String
  classes : List String
  children : List SvgChild
  particles : List Nat
deriving DecidableEq, Repr

/-- The rendering surface: a partial map from element id to element, as seen
through getElementById. -/
abbrev Dom := String → Option DomElement

/-- `classList.add`: appends the class when not already present. -/
def classListAdd (cs : List String) (c : String) : List String :=
  if cs.contains c then cs else cs ++ [c]

/-- `classList.remove`: drops every occurrence of the class. -/
def classListRemove (cs : List String) (c : String) : List String :=
  cs.filter (fun x => !(x == c))

/-- The universal mutation pattern of part_000 and websocket_handler.js:
`const el = document.getElementById(id); if (!el) return; ...mutate el...` —
an update of a single element that silently does nothing when the element is
absent. -/
def updateElement (elementId : String) (f : DomElement → DomElement)
    (dom : Dom) : Dom :=
  match dom elementId with
  | none => dom
  | some el => fun id => if id == elementId then some (f el) else dom id

/-- Immediate DOM effect of `showWelcomeMessage(name)` from part_000: guarded
by getElementById — when status-user is absent the function returns without
touching anything; otherwise it sets the welcome text, shows the element and
adds the slide-in marker (whose timed removal is in the schedule model). -/
def showWelcomeMessage (name : String) (dom : Dom) : Dom :=
  match dom "status-user" with
  | none => dom
  | some el =>
      fun id =>
        if id == "status-user" then
          some { el with
                  textContent := "Welcome, " ++ name ++ "!"
                  display := "block"
                  classes := classListAdd el.classes "slide-in-up" }
        else dom id

/-- The selector `ellipse, circle, path, rect` of `setPartColor`. -/
def isFillable (tag : String) : Bool :=
  tag == "ellipse" || tag == "circle" || tag == "path" || tag == "rect"

/-- The selector `line, path` of `setPartColor`. -/
def isStrokeSelected (tag : String) : Bool :=
  tag == "line" || tag == "path"

/-- `setPartColor(partId, color)` from websocket_handler.js: warns and
returns when the part is absent; otherwise first sets the fill attribute on
every fillable child, then sets the stroke attribute on stroke-selected
children that carry a stroke and (after the first pass) no fill. -/
def setPartColor (partId color : String) (dom : Dom) : Dom :=
  match dom partId with
  | none => dom
  | some part =>
      let afterFill := part.children.map (fun ch =>
        if isFillable ch.tag then { ch with fill := some color } else ch)
      let afterStroke := afterFill.map (fun ch =>
        if isStrokeSelected ch.tag && ch.stroke.isSome && ch.fill.isNone then
          { ch with stroke := some color }
        else ch)
      fun id =>
        if id == partId then some { part with children := afterStroke }
        else dom id

/-- One region's step of `highlightMissingPPE` from websocket_handler.js:
when the region is required and not detected (the same lowercased membership
tests as the coverage mapper), add the attention marker to its element,
guarded by getElementById — an absent region is silently skipped. -/
def highlightMissingPart (currentDetected currentRequired : List String)
    (d : Dom) (p : String × List String) : Dom :=
  let detectedLower := currentDetected.map jsToLower
  let requiredLower := currentRequired.map jsToLower
  let partClassesLower := p.2.map jsToLower
  let isRequired := partClassesLower.any (fun cls => requiredLower.contains cls)
  let isDetected := partClassesLower.any (fun cls => detectedLower.contains cls)
  if isRequired && !isDetected then
    updateElement p.1 (fun el =>
      { el with classes := classListAdd el.classes "attention-animation" }) d
  else d

/-- `highlightMissingPPE()` from websocket_handler.js: flashes every region
of the fixed mapping that is required but not detected, each region
individually guarded (its timed 1000 ms marker removal is likewise per-part
guarded in the source). -/
def highlightMissingPPE (currentDetected currentRequired : List String)
    (dom : Dom) : Dom :=
  BODY_PART_MAPPING.foldl
    (highlightMissingPart currentDetected currentRequired) dom

/-- The rendering targets of each scheduled step: the element ids its effect
is guarded on. The flag steps mutate only the controller's own isAnimating
field and touch no rendering target; the two door steps are guarded on both
progress elements (`if (!progress || !progressBar) return`); the composite
highlightMissingPPE call targets all regions of the fixed mapping. -/
def stepTargets : AnimStep → List String
  | AnimStep.setAnimatingFlag _ => []
  | AnimStep.setTransition elementId _ => [elementId]
  | AnimStep.addClass elementId _ => [elementId]
  | AnimStep.removeClass elementId _ => [elementId]
  | AnimStep.setText elementId _ => [elementId]
  | AnimStep.setDisplay elementId _ => [elementId]
  | AnimStep.createParticle _ => ["access-status"]
  | AnimStep.removeParticle _ => ["access-status"]
  | AnimStep.showProgress => ["door-progress", "door-progress-bar"]
  | AnimStep.startProgressFill _ => ["door-progress", "door-progress-bar"]
  | AnimStep.callHighlightMissingPPE => BODY_PART_MAPPING.map Prod.fst

/-- Rendering semantics of every scheduled step of the granted and denied
sequences, each case carrying its source guard: the style / class / text
mutations and the particle creation / removal (inside the access-status
container) are single-element getElementById-guarded updates; the two
door-progress steps of `animateDoorOpening` are guarded on both progress
elements as in the source; the composite highlightMissingPPE call reads the
detection snapshot, passed explicitly. The flag steps set the controller's
isAnimating field only and leave the rendering surface untouched. -/
def interpStep (currentDetected currentRequired : List String) :
    AnimStep → Dom → Dom
  | AnimStep.setAnimatingFlag _ => fun dom => dom
  | AnimStep.setTransition elementId value =>
      updateElement elementId (fun el => { el with transition := value })
  | AnimStep.addClass elementId className =>
      updateElement elementId
        (fun el => { el with classes := classListAdd el.classes className })
  | AnimStep.removeClass elementId className =>
      updateElement elementId
        (fun el => { el with classes := classListRemove el.classes className })
  | AnimStep.setText elementId value =>
      updateElement elementId (fun el => { el with textContent := value })
  | AnimStep.setDisplay elementId value =>
      updateElement elementId (fun el => { el with display := value })
  | AnimStep.createParticle i =>
      updateElement "access-status"
        (fun el => { el with particles := el.particles ++ [i] })
  | AnimStep.removeParticle i =>
      updateElement "access-status"
        (fun el => { el with particles := el.particles.filter (fun j => !(j == i)) })
  | AnimStep.showProgress => fun dom =>
      match dom "door-progress", dom "door-progress-bar" with
      | some prog, some bar =>
          fun id =>
            if id == "door-progress" then some { prog with display := "block" }
            else if id == "door-progress-bar" then
              some { bar with width := "0%", transition := "none" }
            else dom id
      | _, _ => dom
  | AnimStep.startProgressFill durationMs => fun dom =>
      match dom "door-progress", dom "door-progress-bar" with
      | some _, some bar =>
          fun id =>
            if id == "door-progress-bar" then
              some { bar with
                      transition := "width " ++ toString durationMs ++ "ms linear"
                      width := "100%" }
            else dom id
      | _, _ => dom
  | AnimStep.callHighlightMissingPPE =>
      highlightMissingPPE currentDetected currentRequired

/-- Firing the scheduled steps of a sequence in order on the rendering
surface. -/
def runSchedule (currentDetected currentRequired : List String)
    (events : List (Nat × AnimStep)) (dom : Dom) : Dom :=
  events.foldl
    (fun d e => interpStep currentDetected currentRequired e.2 d) dom

theorem updateElement_absent (elementId : String) (f : DomElement → DomElement)
    (dom : Dom) (h : dom elementId = none) :
    updateElement elementId f dom = dom := by
  simp only [updateElement, h]

theorem updateElement_isSome (elementId : String) (f : DomElement → DomElement)
    (dom : Dom) (x : String) :
    ((updateElement elementId f dom) x).isSome = (dom x).isSome := by
  simp only [updateElement]
  cases h : dom elementId with
  | none => rfl
  | some el =>
    by_cases hx : x = elementId
    · subst hx
      simp [h]
    · have hbeq : (x == elementId) = false := by simpa using hx
      simp [hbeq]

theorem highlightMissingPart_absent (cd cr : List String) (d : Dom)
    (p : String × List String) (h : d p.1 = none) :
    highlightMissingPart cd cr d p = d := by
  simp only [highlightMissingPart]
  split
  · exact updateElement_absent _ _ _ h
  · rfl

theorem highlightMissingPart_isSome (cd cr : List String) (d : Dom)
    (p : String × List String) (x : String) :
    ((highlightMissingPart cd cr d p) x).isSome = (d x).isSome := by
  simp only [highlightMissingPart]
  split
  · exact updateElement_isSome _ _ _ _
  · rfl

theorem foldl_highlight_skip_absent (cd cr : List String) :
    ∀ (l : List (String × List String)) (d : Dom),
      l.foldl (highlightMissingPart cd cr) d
        = (l.filter (fun q => (d q.1).isSome)).foldl
            (highlightMissingPart cd cr) d := by
  intro l
  induction l with
  | nil => intro d; rfl
  | cons p t ih =>
    intro d
    cases hp : d p.1 with
    | none =>
      have hf : (p :: t).filter (fun q => (d q.1).isSome)
          = t.filter (fun q => (d q.1).isSome) := by
        simp [List.filter_cons, hp]
      rw [hf, List.foldl_cons, highlightMissingPart_absent cd cr d p hp]
      exact ih d
    | some el =>
      have hf : (p :: t).filter (fun q => (d q.1).isSome)
          = p :: t.filter (fun q => (d q.1).isSome) := by
        simp [List.filter_cons, hp]
      rw [hf, List.foldl_cons, List.foldl_cons,
        ih (highlightMissingPart cd cr d p)]
      congr 1
      apply List.filter_congr
      intro q hq
      rw [highlightMissingPart_isSome]

theorem interpStep_absent (cd cr : List String) (s : AnimStep) (dom : Dom)
    (hs : s ≠ AnimStep.callHighlightMissingPPE)
    (h : ∃ t ∈ stepTargets s, dom t = none) :
    interpStep cd cr s dom = dom := by
  rcases h with ⟨t, ht, hnone⟩
  cases s with
  | setAnimatingFlag v => rfl
  | setTransition elementId value =>
    simp only [stepTargets, List.mem_singleton] at ht
    subst ht
    exact updateElement_absent _ _ _ hnone
  | addClass elementId className =>
    simp only [stepTargets, List.mem_singleton] at ht
    subst ht
    exact updateElement_absent _ _ _ hnone
  | removeClass elementId className =>
    simp only [stepTargets, List.mem_singleton] at ht
    subst ht
    exact updateElement_absent _ _ _ hnone
  | setText elementId value =>
    simp only [stepTargets, List.mem_singleton] at ht
    subst ht
    exact updateElement_absent _ _ _ hnone
  | setDisplay elementId value =>
    simp only [stepTargets, List.mem_singleton] at ht
    subst ht
    exact updateElement_absent _ _ _ hnone
  | createParticle i =>
    simp only [stepTargets, List.mem_singleton] at ht
    subst ht
    exact updateElement_absent _ _ _ hnone
  | removeParticle i =>
    simp only [stepTargets, List.mem_singleton] at ht
    subst ht
    exact updateElement_absent _ _ _ hnone
  | showProgress =>
    simp only [interpStep]
    cases h1 : dom "door-progress" with
    | none =>
      cases h2 : dom "door-progress-bar" with
      | none => rfl
      | some bar => rfl
    | some prog =>
      cases h2 : dom "door-progress-bar" with
      | none => rfl
      | some bar =>
        exfalso
        simp only [stepTargets, List.mem_cons, List.mem_singleton,
          List.not_mem_nil, or_false] at ht
        rcases ht with rfl | rfl
        · rw [h1] at hnone
          exact Option.noConfusion hnone
        · rw [h2] at hnone
          exact Option.noConfusion hnone
  | startProgressFill durationMs =>
    simp only [interpStep]
    cases h1 : dom "door-progress" with
    | none =>
      cases h2 : dom "door-progress-bar" with
      | none => rfl
      | some bar => rfl
    | some prog =>
      cases h2 : dom "door-progress-bar" with
      | none => rfl
      | some bar =>
        exfalso
        simp only [stepTargets, List.mem_cons, List.mem_singleton,
          List.not_mem_nil, or_false] at ht
        rcases ht with rfl | rfl
        · rw [h1] at hnone
          exact Option.noConfusion hnone
        · rw [h2] at hnone
          exact Option.noConfusion hnone
  | callHighlightMissingPPE => exact absurd rfl hs

/-- Claim C9: for every scheduled animation action of the granted and denied
sequences, an absent rendering target at firing time makes the action a
silent no-op — the interpreters are total functions, so nothing is raised or
propagated. In detail: every getElementById-guarded element update is the
identity on an absent target; every step of the two sequences' schedules
other than the composite highlightMissingPPE call leaves the surface exactly
unchanged when one of its rendering targets is absent; the composite call
skips precisely its absent regions — it equals the same call restricted to
the present regions — and is the identity when every region is absent; the
directly invoked helpers showWelcomeMessage and setPartColor are no-ops on
an absent target; and a no-op step never prevents sibling scheduled steps
from firing: running a schedule containing it equals running the siblings
alone. -/
theorem c9_missing_target_noop :
    (∀ (elementId : String) (f : DomElement → DomElement) (dom : Dom),
        dom elementId = none → updateElement elementId f dom = dom)
  ∧ (∀ (cd cr : List String) (personName : String) (e : Nat × AnimStep)
        (dom : Dom),
        e ∈ playAccessGrantedSchedule personName ++ playAccessDeniedSchedule →
        e.2 ≠ AnimStep.callHighlightMissingPPE →
        (∃ t ∈ stepTargets e.2, dom t = none) →
        interpStep cd cr e.2 dom = dom)
  ∧ (∀ (cd cr : List String) (dom : Dom),
        interpStep cd cr AnimStep.callHighlightMissingPPE dom
          = (BODY_PART_MAPPING.filter (fun q => (dom q.1).isSome)).foldl
              (highlightMissingPart cd cr) dom)
  ∧ (∀ (cd cr : List String) (dom : Dom),
        (∀ p ∈ BODY_PART_MAPPING, dom p.1 = none) →
        interpStep cd cr AnimStep.callHighlightMissingPPE dom = dom)
  ∧ (∀ (name : String) (dom : Dom), dom "status-user" = none →
        showWelcomeMessage name dom = dom)
  ∧ (∀ (partId color : String) (dom : Dom), dom partId = none →
        setPartColor partId color dom = dom)
  ∧ (∀ (cd cr : List String) (pre post : List (Nat × AnimStep))
        (e : Nat × AnimStep) (dom : Dom),
        interpStep cd cr e.2 (runSchedule cd cr pre dom)
            = runSchedule cd cr pre dom →
        runSchedule cd cr (pre ++ e :: post) dom
            = runSchedule cd cr (pre ++ post) dom) := by
  refine ⟨?_, ?_, ?_, ?_, ?_, ?_, ?_⟩
  · intro elementId f dom h
    exact updateElement_absent elementId f dom h
  · intro cd cr personName e dom hmem hne h
    exact interpStep_absent cd cr e.2 dom hne h
  · intro cd cr dom
    exact foldl_highlight_skip_absent cd cr BODY_PART_MAPPING dom
  · intro cd cr dom h
    have hfilter : BODY_PART_MAPPING.filter (fun q => (dom q.1).isSome) = [] := by
      rw [List.filter_eq_nil_iff]
      intro q hq
      simp [h q hq]
    show BODY_PART_MAPPING.foldl (highlightMissingPart cd cr) dom = dom
    rw [foldl_highlight_skip_absent cd cr BODY_PART_MAPPING dom, hfilter]
    rfl
  · intro name dom h
    simp only [showWelcomeMessage, h]
  · intro partId color dom h
    simp only [setPartColor, h]
  · intro cd cr pre post e dom h
    simp only [runSchedule] at h ⊢
    rw [List.foldl_append, List.foldl_append, List.foldl_cons]
    change List.foldl (fun d ev => interpStep cd cr ev.2 d)
        (interpStep cd cr e.2
          (List.foldl (fun d ev => interpStep cd cr ev.2 d) dom pre)) post
      = List.foldl (fun d ev => interpStep cd cr ev.2 d)
        (List.foldl (fun d ev => interpStep cd cr ev.2 d) dom pre) post
    rw [h]

/-- Witness for C9 at concrete inputs on the empty rendering surface: a
scheduled granted-sequence step, the composite highlightMissingPPE call of
the denied sequence, and the two directly invoked helpers are all the
identity there. -/
theorem c9_missing_target_noop_witness :
    interpStep [] [] (AnimStep.addClass "access-status" "fade-out")
        (fun _ => none) = (fun _ => none)
  ∧ interpStep ["helmet"] ["Helmet", "Gloves"] AnimStep.callHighlightMissingPPE
        (fun _ => none) = (fun _ => none)
  ∧ showWelcomeMessage "Alex" (fun _ => none) = (fun _ => none)
  ∧ setPartColor "head" "#10B981" (fun _ => none) = (fun _ => none) :=
  ⟨c9_missing_target_noop.2.1 [] [] "Alex"
      (200, AnimStep.addClass "access-status" "fade-out") (fun _ => none)
      (by decide) (by decide) ⟨"access-status", by decide, rfl⟩,
   c9_missing_target_noop.2.2.2.1 ["helmet"] ["Helmet", "Gloves"]
      (fun _ => none) (fun p hp => rfl),
   c9_missing_target_noop.2.2.2.2.1 "Alex" (fun _ => none) rfl,
   c9_missing_target_noop.2.2.2.2.2.1 "head" "#10B981" (fun _ => none) rfl⟩
